import Mathlib

/-!
Verification of the `water-reflection` repository (two versions of the
`MainScene` class: `src/js/components/scene.js`, the text/image/particles
version, and an earlier sphere version).

The JavaScript is shallowly embedded: JS numbers are modelled as rationals
(every finite IEEE double is a rational; `undefined`/`NaN` where a claim
needs it is modelled with `Option`), `Math.random()` as an explicit stream
of rationals, `Math.PI` and `Math.sin` as an abstract math environment,
and each method of `MainScene` as a function on an explicit state record.
-/

/-- The JavaScript `Math` environment. `Math.PI` is some fixed double
(a rational); `Math.sin` is an opaque function on doubles, hypothesised to
be bounded by `[-1, 1]` where a theorem needs that. -/
structure JsMath where
  pi : ℚ
  sin : ℚ → ℚ

/-- The browser window state read by the scene code. -/
structure Window where
  innerWidth : ℚ
  innerHeight : ℚ
  devicePixelRatio : ℚ
deriving DecidableEq

/-- The fields of a `MainScene` instance (and of the three.js objects it
owns) that the claims are about.  `width`, `height` and the camera aspect
are `Option ℚ` because the class fields start out `undefined` and
`undefined / undefined` is `NaN` (modelled as `none`). -/
structure SceneState where
  width : Option ℚ
  height : Option ℚ
  cameraAspect : Option ℚ
  cameraPosX : ℚ
  cameraPosY : ℚ
  cameraPosZ : ℚ
  projectionUpdated : Bool
  pixelRatio : ℚ
  rendererWidth : Option ℚ
  rendererHeight : Option ℚ
  reflectorPosY : ℚ
  reflectorRotX : ℚ
  reflectorTime : ℚ
  sphereY : ℚ
  guiY : ℚ
deriving DecidableEq

/-- A fresh `MainScene` instance: the class fields `width` and `height`
are declared but never assigned (`undefined`), `guiObj.y` is `0`; the
numeric placeholders for objects not yet constructed are `0`. -/
def initialState : SceneState :=
  { width := none
    height := none
    cameraAspect := none
    cameraPosX := 0
    cameraPosY := 0
    cameraPosZ := 0
    projectionUpdated := false
    pixelRatio := 1
    rendererWidth := none
    rendererHeight := none
    reflectorPosY := 0
    reflectorRotX := 0
    reflectorTime := 0
    sphereY := 0
    guiY := 0 }

/-- JavaScript division on possibly-`undefined` numbers: if either operand
is `undefined` the result is `NaN` (`none`). -/
def jsDiv : Option ℚ → Option ℚ → Option ℚ
  | some a, some b => some (a / b)
  | _, _ => none

/-- Texture wrapping modes used by the code (`RepeatWrapping` from three). -/
inductive TextureWrap
  | repeatWrapping
  | clampToEdgeWrapping
deriving DecidableEq

/-- The configuration both versions of `setReflector` build: the circle
geometry, the customised `Reflector.ReflectorShader` (shader sources are
identified by their import paths), the dudv texture wrapping, the `time`
uniform, and the `Reflector` constructor options. -/
structure ReflectorConfig where
  geometryRadius : ℚ
  geometrySegments : ℕ
  vertexShaderSrc : String
  fragmentShaderSrc : String
  dudvWrapS : TextureWrap
  dudvWrapT : TextureWrap
  timeUniform : ℚ
  clipBias : ℚ
  textureWidth : ℚ
  textureHeight : ℚ
  color : ℕ
deriving DecidableEq

/-- Callbacks the scene hands to the browser. -/
inductive Callback
  | draw
  | handleResize
deriving DecidableEq

/-- The observable effects of one invocation of `draw`, in order. -/
inductive DrawEffect
  | statsBegin
  | controlsUpdate
  | renderCall
  | statsEnd
  | requestFrame (cb : Callback)
deriving DecidableEq

/-!
## Version 1: `src/js/components/scene.js` (text, image, particles)
-/

namespace TextScene

/-- `setStats`: builds the fps panel and appends it to the DOM; none of the
modelled fields change. -/
def setStats (s : SceneState) : SceneState := s

/-- `setScene`: creates the `Scene` and sets its background colour; none of
the modelled fields change. -/
def setScene (s : SceneState) : SceneState := s

/-- `setRender`: creates the `WebGLRenderer` on the canvas; none of the
modelled fields change (its size is only set later, by `handleResize`). -/
def setRender (s : SceneState) : SceneState := s

/-- `setCamera`: computes `aspectRatio = this.width / this.height` from the
still-unassigned class fields, constructs the `PerspectiveCamera` with it,
and places the camera at `(1, 2.5, 6)`. -/
def setCamera (s : SceneState) : SceneState :=
  { s with
    cameraAspect := jsDiv s.width s.height
    cameraPosY := 5/2
    cameraPosX := 1
    cameraPosZ := 6 }

/-- `setControls`: configures `OrbitControls`; none of the modelled fields
change. -/
def setControls (s : SceneState) : SceneState := s

/-- `setText`: starts an asynchronous font load that later adds a text
mesh; none of the modelled fields change. -/
def setText (s : SceneState) : SceneState := s

/-- `setLights`: adds a directional and an ambient light; none of the
modelled fields change. -/
def setLights (s : SceneState) : SceneState := s

/-- `setReflector` (state part): constructs the `Reflector` on a fresh
circle geometry with the `time` uniform initialised to `0`, then sets
`groundMirror.position.y = 0` and applies `rotateX(-Math.PI / 2)` to the
fresh (unrotated) mirror. -/
def setReflector (m : JsMath) (s : SceneState) : SceneState :=
  { s with
    reflectorTime := 0
    reflectorPosY := 0
    reflectorRotX := -(m.pi / 2) }

/-- `setReflector` (configuration part): the geometry, shader, texture and
`Reflector` constructor options it assembles.  Shader sources are
identified by their import paths (`../glsl/main.vert`, `../glsl/main.frag`). -/
def reflectorConfig (w : Window) : ReflectorConfig :=
  { geometryRadius := 40
    geometrySegments := 64
    vertexShaderSrc := "../glsl/main.vert"
    fragmentShaderSrc := "../glsl/main.frag"
    dudvWrapS := TextureWrap.repeatWrapping
    dudvWrapT := TextureWrap.repeatWrapping
    timeUniform := 0
    clipBias := 3/1000
    textureWidth := w.innerWidth
    textureHeight := w.innerHeight
    color := 0x000000 }

/-- The body of the `for` loop in `setParticles`, written over an explicit
stream `rnd` of `Math.random()` results (`r` counts how many randoms have
been consumed so far; `i` steps by 3 as in the source):

    for(let i = 0; i < count; i+=3) {
        const x = (Math.random() - 0.5) * 100
        const z = (Math.random() - 0.5) * 100
        positions[i] = (Math.random() - 0.5) * 100
        positions[i+1] = (Math.random() + 1) * 6 - (x * 0.1)
        positions[i+2] = z
    }

with `count = 5000`.  The locals are inlined: `x` is `rnd r`-based,
`z` is `rnd (r+1)`-based, `positions[i]` consumes `rnd (r+2)` and
`positions[i+1]` consumes `rnd (r+3)`, matching the evaluation order of the
four `Math.random()` calls in the loop body. -/
def particlesLoop (rnd : ℕ → ℚ) (i r : ℕ) (pos : ℕ → ℚ) : ℕ → ℚ :=
  if i < 5000 then
    particlesLoop rnd (i+3) (r+4)
      (Function.update
        (Function.update
          (Function.update pos i ((rnd (r+2) - 1/2) * 100))
          (i+1) ((rnd (r+3) + 1) * 6 - ((rnd r - 1/2) * 100) * (1/10)))
        (i+2) ((rnd (r+1) - 1/2) * 100))
  else pos
termination_by 5000 - i

/-- `setParticles`: the contents of the `positions` array
(`new Float32Array(count * 3)`, zero-initialised, `count = 5000`) after the
loop, as a function from array index to value.  The state-level effect of
`setParticles` is only to add a `Points` mesh to the scene. -/
def setParticles (rnd : ℕ → ℚ) : ℕ → ℚ :=
  particlesLoop rnd 0 0 (fun _ => 0)

/-- State-level effect of `setParticles`: a `Points` mesh is added; none of
the modelled fields change. -/
def setParticlesStep (s : SceneState) : SceneState := s

/-- `setImage`: adds a textured plane; none of the modelled fields change. -/
def setImage (s : SceneState) : SceneState := s

/-- `handleResize`: stores the window dimensions in `this.width` and
`this.height`, updates the camera aspect and projection matrix from them,
and resizes the renderer with pixel ratio `window.devicePixelRatio`
falling back to `1` when that is falsy. -/
def handleResize (w : Window) (s : SceneState) : SceneState :=
  let s1 := { s with width := some w.innerWidth, height := some w.innerHeight }
  let s2 := { s1 with
    cameraAspect := jsDiv s1.width s1.height
    projectionUpdated := true }
  let dpr := if w.devicePixelRatio ≠ 0 then w.devicePixelRatio else 1
  { s2 with
    pixelRatio := dpr
    rendererWidth := s2.width
    rendererHeight := s2.height }

/-- `draw` (state part): updates the reflector `time` uniform by `+= 0.1`;
the `time` argument is otherwise unused by this version. -/
def draw (_time : ℚ) (s : SceneState) : SceneState :=
  { s with reflectorTime := s.reflectorTime + 1/10 }

/-- `draw` (effect trace): `stats.begin()`, a conditional
`controls.update()`, exactly one `renderer.render(scene, camera)`,
`stats.end()`, and exactly one `requestAnimationFrame(this.draw)`. -/
def drawEffects (controlsPresent : Bool) : List DrawEffect :=
  [DrawEffect.statsBegin] ++
  (if controlsPresent then [DrawEffect.controlsUpdate] else []) ++
  [DrawEffect.renderCall, DrawEffect.statsEnd,
   DrawEffect.requestFrame Callback.draw]

/-- Iterating `draw` over a sequence `ts` of frame timestamps. -/
def drawIter (ts : ℕ → ℚ) : ℕ → SceneState → SceneState
  | 0, s => s
  | n+1, s => draw (ts n) (drawIter ts n s)

/-- The scene state just before `init` reaches `setCamera`
(after `setStats`, `setScene`, `setRender`). -/
def stateBeforeCamera : SceneState :=
  setRender (setScene (setStats initialState))

/-- The scene state built by `init` up to and including `handleResize`,
i.e. just before `events()` starts the animation loop: `setStats`,
`setScene`, `setRender`, `setCamera`, `setControls`, `setText`,
`setLights`, `setReflector`, `setParticles`, `setImage`, `handleResize`,
in source order. -/
def initBeforeEvents (m : JsMath) (w : Window) : SceneState :=
  handleResize w
    (setImage
      (setParticlesStep
        (setReflector m
          (setLights
            (setText
              (setControls
                (setCamera stateBeforeCamera)))))))

end TextScene

/-!
## Sphere version (`src/unnamed/part_000`): animated sphere + GUI
-/

namespace SphereScene

/-- `setStats`: builds the fps panel; none of the modelled fields change. -/
def setStats (s : SceneState) : SceneState := s

/-- `handleChange`, the GUI `onChange` handler inside `setGUI`: copies
`this.guiObj.y` into `sphereMesh.position.y` (the `if (gui)` guard is
always true once the handler can fire). -/
def handleChange (s : SceneState) : SceneState :=
  { s with sphereY := s.guiY }

/-- A GUI interaction: `lil-gui` writes the slider value into
`this.guiObj.y`, then invokes the `onChange` handler `handleChange`. -/
def guiSetY (y : ℚ) (s : SceneState) : SceneState :=
  handleChange { s with guiY := y }

/-- `setGUI` itself: builds the GUI and registers `handleChange`; none of
the modelled fields change until the user moves the slider. -/
def setGUI (s : SceneState) : SceneState := s

/-- `setScene`: creates the `Scene` and sets its background colour; none of
the modelled fields change. -/
def setScene (s : SceneState) : SceneState := s

/-- `setRender`: creates the `WebGLRenderer`; none of the modelled fields
change. -/
def setRender (s : SceneState) : SceneState := s

/-- `setCamera`: computes `aspectRatio = this.width / this.height` from the
still-unassigned class fields, constructs the `PerspectiveCamera` with it,
and places the camera at `(5, 5, 5)`. -/
def setCamera (s : SceneState) : SceneState :=
  { s with
    cameraAspect := jsDiv s.width s.height
    cameraPosY := 5
    cameraPosX := 5
    cameraPosZ := 5 }

/-- `setControls`: configures `OrbitControls`; none of the modelled fields
change. -/
def setControls (s : SceneState) : SceneState := s

/-- `setSphere`: creates `SphereGeometry(1, 32, 32)` with a standard
material and adds `sphereMesh` at the default position (origin). -/
def setSphere (s : SceneState) : SceneState :=
  { s with sphereY := 0 }

/-- `setLights`: adds a directional and an ambient light; none of the
modelled fields change. -/
def setLights (s : SceneState) : SceneState := s

/-- `setReflector` (state part), identical text to the other version:
`time` uniform initialised to `0`, `groundMirror.position.y = 0`,
`rotateX(-Math.PI / 2)` on the fresh mirror. -/
def setReflector (m : JsMath) (s : SceneState) : SceneState :=
  { s with
    reflectorTime := 0
    reflectorPosY := 0
    reflectorRotX := -(m.pi / 2) }

/-- `setReflector` (configuration part) of the sphere version. -/
def reflectorConfig (w : Window) : ReflectorConfig :=
  { geometryRadius := 40
    geometrySegments := 64
    vertexShaderSrc := "../glsl/main.vert"
    fragmentShaderSrc := "../glsl/main.frag"
    dudvWrapS := TextureWrap.repeatWrapping
    dudvWrapT := TextureWrap.repeatWrapping
    timeUniform := 0
    clipBias := 3/1000
    textureWidth := w.innerWidth
    textureHeight := w.innerHeight
    color := 0x000000 }

/-- `handleResize` of the sphere version (textually identical to the other
version). -/
def handleResize (w : Window) (s : SceneState) : SceneState :=
  let s1 := { s with width := some w.innerWidth, height := some w.innerHeight }
  let s2 := { s1 with
    cameraAspect := jsDiv s1.width s1.height
    projectionUpdated := true }
  let dpr := if w.devicePixelRatio ≠ 0 then w.devicePixelRatio else 1
  { s2 with
    pixelRatio := dpr
    rendererWidth := s2.width
    rendererHeight := s2.height }

/-- `draw` (state part): sets
`sphereMesh.position.y = Math.sin(time / 1000) + 3` and updates the
reflector `time` uniform by `+= 0.1`. -/
def draw (m : JsMath) (time : ℚ) (s : SceneState) : SceneState :=
  { s with
    sphereY := m.sin (time / 1000) + 3
    reflectorTime := s.reflectorTime + 1/10 }

/-- `draw` (effect trace) of the sphere version: same shape as the other
version. -/
def drawEffects (controlsPresent : Bool) : List DrawEffect :=
  [DrawEffect.statsBegin] ++
  (if controlsPresent then [DrawEffect.controlsUpdate] else []) ++
  [DrawEffect.renderCall, DrawEffect.statsEnd,
   DrawEffect.requestFrame Callback.draw]

/-- Iterating `draw` over a sequence `ts` of frame timestamps. -/
def drawIter (m : JsMath) (ts : ℕ → ℚ) : ℕ → SceneState → SceneState
  | 0, s => s
  | n+1, s => draw m (ts n) (drawIter m ts n s)

end SphereScene

/-!
## Helper lemmas about the particle loop
-/

namespace TextScene

/-- The value the loop writes at offset `0`, `1` or `2` of an iteration
whose first random index is `r`. -/
def slotValue (rnd : ℕ → ℚ) (r : ℕ) : ℕ → ℚ
  | 0 => (rnd (r+2) - 1/2) * 100
  | 1 => (rnd (r+3) + 1) * 6 - ((rnd r - 1/2) * 100) * (1/10)
  | _ => (rnd (r+1) - 1/2) * 100

/-- The loop never writes below its current index. -/
theorem particlesLoop_low (rnd : ℕ → ℚ) (i r : ℕ) (pos : ℕ → ℚ) (j : ℕ)
    (hj : j < i) : particlesLoop rnd i r pos j = pos j := by
  rw [particlesLoop]
  split
  · rw [particlesLoop_low rnd (i+3) (r+4) _ j (by omega),
      Function.update_noteq (by omega : j ≠ i+2),
      Function.update_noteq (by omega : j ≠ i+1),
      Function.update_noteq (by omega : j ≠ i)]
  · rfl
termination_by 5000 - i
decreasing_by omega

/-- Starting from an index divisible by 3, the loop never writes above
index 5000. -/
theorem particlesLoop_high (rnd : ℕ → ℚ) (i r : ℕ) (pos : ℕ → ℚ) (j : ℕ)
    (hi : i % 3 = 0) (hj : 5000 < j) : particlesLoop rnd i r pos j = pos j := by
  rw [particlesLoop]
  split
  · rw [particlesLoop_high rnd (i+3) (r+4) _ j (by omega) hj,
      Function.update_noteq (by omega : j ≠ i+2),
      Function.update_noteq (by omega : j ≠ i+1),
      Function.update_noteq (by omega : j ≠ i)]
  · rfl
termination_by 5000 - i
decreasing_by omega

/-- What the loop leaves at each index of the written region
`[i, 5000]`. -/
theorem particlesLoop_written (rnd : ℕ → ℚ) (i r : ℕ) (pos : ℕ → ℚ) (j : ℕ)
    (hi : i % 3 = 0) (hij : i ≤ j) (hj : j ≤ 5000) :
    particlesLoop rnd i r pos j
      = slotValue rnd (r + 4 * ((j - i) / 3)) ((j - i) % 3) := by
  rw [particlesLoop]
  split
  · by_cases hcase : j < i + 3
    · rw [particlesLoop_low rnd (i+3) (r+4) _ j (by omega)]
      have h3 : j = i ∨ j = i + 1 ∨ j = i + 2 := by omega
      rcases h3 with h | h | h <;> rw [h]
      · rw [(by omega : r + 4 * ((i - i) / 3) = r),
          (by omega : (i - i) % 3 = 0),
          Function.update_noteq (by omega : i ≠ i+2),
          Function.update_noteq (by omega : i ≠ i+1),
          Function.update_same]
        rfl
      · rw [(by omega : r + 4 * ((i + 1 - i) / 3) = r),
          (by omega : (i + 1 - i) % 3 = 1),
          Function.update_noteq (by omega : i+1 ≠ i+2),
          Function.update_same]
        rfl
      · rw [(by omega : r + 4 * ((i + 2 - i) / 3) = r),
          (by omega : (i + 2 - i) % 3 = 2),
          Function.update_same]
        rfl
    · rw [particlesLoop_written rnd (i+3) (r+4) _ j (by omega) (by omega) hj,
        (by omega : r + 4 + 4 * ((j - (i+3)) / 3) = r + 4 * ((j - i) / 3)),
        (by omega : (j - (i+3)) % 3 = (j - i) % 3)]
  · omega
termination_by 5000 - i
decreasing_by omega

/-- Closed form for the written region of the positions array. -/
theorem setParticles_written (rnd : ℕ → ℚ) (j : ℕ) (hj : j ≤ 5000) :
    setParticles rnd j = slotValue rnd (4 * (j / 3)) (j % 3) := by
  have h := particlesLoop_written rnd 0 0 (fun _ => 0) j (by omega)
    (Nat.zero_le j) hj
  simpa using h

/-- Indices above 5000 keep their initial value 0. -/
theorem setParticles_zero_of_high (rnd : ℕ → ℚ) (j : ℕ) (hj : 5000 < j) :
    setParticles rnd j = 0 := by
  have h := particlesLoop_high rnd 0 0 (fun _ => 0) j (by omega) hj
  simpa using h

end TextScene

/-!
## Claim theorems
-/

/-- C1: in both versions of `MainScene`, one invocation of `draw` performs
exactly one `renderer.render` call and schedules exactly one subsequent
`requestAnimationFrame` callback, namely `draw` itself, whether or not the
controls object exists — so `render` runs once per animation frame and the
loop reschedules itself unconditionally. -/
theorem draw_renders_once_and_reschedules (b : Bool) :
    ((TextScene.drawEffects b).count DrawEffect.renderCall = 1 ∧
      (TextScene.drawEffects b).count
        (DrawEffect.requestFrame Callback.draw) = 1) ∧
    ((SphereScene.drawEffects b).count DrawEffect.renderCall = 1 ∧
      (SphereScene.drawEffects b).count
        (DrawEffect.requestFrame Callback.draw) = 1) := by
  cases b <;> decide

/-- C2: every particle coordinate written by the loop in `setParticles` is
bounded, provided every `Math.random()` result lies in `[0, 1)`: the
x-coordinates (offset 0) and z-coordinates (offset 2) lie in `[-50, 50]`,
and the y-coordinates (offset 1), computed as `(r + 1) * 6` minus `0.1`
times an auxiliary value in `[-50, 50)`, lie in `[1, 17]`. -/
theorem setParticles_coords_bounded (rnd : ℕ → ℚ)
    (hr : ∀ n, 0 ≤ rnd n ∧ rnd n < 1) (j : ℕ) (hj : j ≤ 5000) :
    (j % 3 = 0 → -50 ≤ TextScene.setParticles rnd j ∧
      TextScene.setParticles rnd j ≤ 50) ∧
    (j % 3 = 1 → 1 ≤ TextScene.setParticles rnd j ∧
      TextScene.setParticles rnd j ≤ 17) ∧
    (j % 3 = 2 → -50 ≤ TextScene.setParticles rnd j ∧
      TextScene.setParticles rnd j ≤ 50) := by
  rw [TextScene.setParticles_written rnd j hj]
  refine ⟨fun h0 => ?_, fun h1 => ?_, fun h2 => ?_⟩
  · rw [h0]
    have ha := hr (4 * (j / 3) + 2)
    simp only [TextScene.slotValue]
    constructor <;> linarith [ha.1, ha.2]
  · rw [h1]
    have ha := hr (4 * (j / 3))
    have hb := hr (4 * (j / 3) + 3)
    simp only [TextScene.slotValue]
    constructor <;> linarith [ha.1, ha.2, hb.1, hb.2]
  · rw [h2]
    have ha := hr (4 * (j / 3) + 1)
    simp only [TextScene.slotValue]
    constructor <;> linarith [ha.1, ha.2]

/-- Witness for C2: the constant stream 1/2 satisfies the randomness
bounds, and the y-coordinate at index 1 lands in `[1, 17]`. -/
theorem setParticles_coords_bounded_witness :
    (∀ n : ℕ, 0 ≤ (fun _ : ℕ => (1:ℚ)/2) n ∧ (fun _ : ℕ => (1:ℚ)/2) n < 1) ∧
    (1:ℕ) ≤ 5000 ∧ (1:ℕ) % 3 = 1 ∧
    (1 ≤ TextScene.setParticles (fun _ => 1/2) 1 ∧
      TextScene.setParticles (fun _ => 1/2) 1 ≤ 17) :=
  ⟨fun _ => ⟨by norm_num, by norm_num⟩, by decide, by decide,
    (setParticles_coords_bounded (fun _ => 1/2)
      (fun _ => ⟨by norm_num, by norm_num⟩) 1 (by decide)).2.1 (by decide)⟩

/-- C3: the loop (`i` from 0 to 4998 in steps of 3) writes only indices
0 through 5000 of the 15000-entry positions array; every index from 5001
through 14999 keeps its initial 0, so particles 1667 through 4999 — 3333
of the 5000 declared particles, roughly two thirds — sit at the origin. -/
theorem setParticles_tail_untouched (rnd : ℕ → ℚ) (j : ℕ)
    (h1 : 5001 ≤ j) (h2 : j ≤ 14999) :
    TextScene.setParticles rnd j = 0 ∧
    (∀ k, 1667 ≤ k → k ≤ 4999 →
      TextScene.setParticles rnd (3*k) = 0 ∧
      TextScene.setParticles rnd (3*k+1) = 0 ∧
      TextScene.setParticles rnd (3*k+2) = 0) := by
  refine ⟨TextScene.setParticles_zero_of_high rnd j (by omega),
    fun k hk1 hk2 => ?_⟩
  exact ⟨TextScene.setParticles_zero_of_high rnd _ (by omega),
    TextScene.setParticles_zero_of_high rnd _ (by omega),
    TextScene.setParticles_zero_of_high rnd _ (by omega)⟩

/-- Witness for C3 at index 5001. -/
theorem setParticles_tail_untouched_witness :
    (5001:ℕ) ≤ 5001 ∧ (5001:ℕ) ≤ 14999 ∧
    TextScene.setParticles (fun _ => 0) 5001 = 0 :=
  ⟨by decide, by decide,
    (setParticles_tail_untouched (fun _ => 0) 5001 (by decide) (by decide)).1⟩

/-- Closed form for the `time` uniform after iterating the version-1
`draw`. -/
theorem TextScene.drawIter_time_text (ts : ℕ → ℚ) (n : ℕ) (s : SceneState) :
    (TextScene.drawIter ts n s).reflectorTime
      = s.reflectorTime + n * (1/10) := by
  induction n with
  | zero => simp [TextScene.drawIter]
  | succ n ih =>
    simp only [TextScene.drawIter, TextScene.draw, ih]
    push_cast
    ring

/-- Closed form for the `time` uniform after iterating the sphere-version
`draw`. -/
theorem SphereScene.drawIter_time_sphere (m : JsMath) (ts : ℕ → ℚ) (n : ℕ)
    (s : SceneState) :
    (SphereScene.drawIter m ts n s).reflectorTime
      = s.reflectorTime + n * (1/10) := by
  induction n with
  | zero => simp [SphereScene.drawIter]
  | succ n ih =>
    simp only [SphereScene.drawIter, SphereScene.draw, ih]
    push_cast
    ring

/-- C4: both versions of `setReflector` put the water plane at height 0,
rotated by `-π/2` about the X axis, and none of the operations that run
afterwards (`draw`, `handleResize`, the GUI change handler) moves it:
`draw` touches only the mirror's `time` uniform. -/
theorem reflector_pose_fixed (m : JsMath) (w : Window) (t y : ℚ)
    (s : SceneState) :
    ((TextScene.setReflector m s).reflectorPosY = 0 ∧
      (TextScene.setReflector m s).reflectorRotX = -(m.pi / 2)) ∧
    ((SphereScene.setReflector m s).reflectorPosY = 0 ∧
      (SphereScene.setReflector m s).reflectorRotX = -(m.pi / 2)) ∧
    ((TextScene.draw t s).reflectorPosY = s.reflectorPosY ∧
      (TextScene.draw t s).reflectorRotX = s.reflectorRotX) ∧
    ((SphereScene.draw m t s).reflectorPosY = s.reflectorPosY ∧
      (SphereScene.draw m t s).reflectorRotX = s.reflectorRotX) ∧
    ((TextScene.handleResize w s).reflectorPosY = s.reflectorPosY ∧
      (TextScene.handleResize w s).reflectorRotX = s.reflectorRotX) ∧
    ((SphereScene.handleResize w s).reflectorPosY = s.reflectorPosY ∧
      (SphereScene.handleResize w s).reflectorRotX = s.reflectorRotX) ∧
    ((SphereScene.guiSetY y s).reflectorPosY = s.reflectorPosY ∧
      (SphereScene.guiSetY y s).reflectorRotX = s.reflectorRotX) :=
  ⟨⟨rfl, rfl⟩, ⟨rfl, rfl⟩, ⟨rfl, rfl⟩, ⟨rfl, rfl⟩, ⟨rfl, rfl⟩, ⟨rfl, rfl⟩,
    ⟨rfl, rfl⟩⟩

/-- C5: the water shader's `time` uniform starts at 0 in `setReflector`,
each `draw` (both versions) adds exactly 0.1 and never decreases it, after
`n` draws from the freshly built reflector it equals `n * 0.1`, it is
non-decreasing along the loop, and it is strictly positive once at least
one draw has happened. -/
theorem reflector_time_monotone (m : JsMath) (ts : ℕ → ℚ) (t : ℚ)
    (s : SceneState) (n : ℕ) :
    (TextScene.setReflector m s).reflectorTime = 0 ∧
    (SphereScene.setReflector m s).reflectorTime = 0 ∧
    (TextScene.draw t s).reflectorTime = s.reflectorTime + 1/10 ∧
    (SphereScene.draw m t s).reflectorTime = s.reflectorTime + 1/10 ∧
    s.reflectorTime ≤ (TextScene.draw t s).reflectorTime ∧
    s.reflectorTime ≤ (SphereScene.draw m t s).reflectorTime ∧
    (TextScene.drawIter ts n (TextScene.setReflector m s)).reflectorTime
      = n * (1/10) ∧
    (SphereScene.drawIter m ts n
      (SphereScene.setReflector m s)).reflectorTime = n * (1/10) ∧
    (TextScene.drawIter ts n s).reflectorTime
      ≤ (TextScene.drawIter ts (n+1) s).reflectorTime ∧
    (SphereScene.drawIter m ts n s).reflectorTime
      ≤ (SphereScene.drawIter m ts (n+1) s).reflectorTime ∧
    (1 ≤ n →
      0 < (TextScene.drawIter ts n
        (TextScene.setReflector m s)).reflectorTime) ∧
    (1 ≤ n →
      0 < (SphereScene.drawIter m ts n
        (SphereScene.setReflector m s)).reflectorTime) := by
  have ht := TextScene.drawIter_time_text ts n (TextScene.setReflector m s)
  have hs := SphereScene.drawIter_time_sphere m ts n (SphereScene.setReflector m s)
  have ht2 := TextScene.drawIter_time_text ts n s
  have hs2 := SphereScene.drawIter_time_sphere m ts n s
  have ht3 := TextScene.drawIter_time_text ts (n+1) s
  have hs3 := SphereScene.drawIter_time_sphere m ts (n+1) s
  have hz : (TextScene.setReflector m s).reflectorTime = 0 := rfl
  have hz2 : (SphereScene.setReflector m s).reflectorTime = 0 := rfl
  rw [hz] at ht
  rw [hz2] at hs
  refine ⟨rfl, rfl, rfl, rfl, by simp [TextScene.draw],
    by simp [SphereScene.draw], by rw [ht]; ring, by rw [hs]; ring,
    ?_, ?_, ?_, ?_⟩
  · rw [ht2, ht3]
    push_cast
    linarith
  · rw [hs2, hs3]
    push_cast
    linarith
  · intro hn
    rw [ht]
    have hn2 : (1:ℚ) ≤ (n:ℚ) := by exact_mod_cast hn
    linarith
  · intro hn
    rw [hs]
    have hn2 : (1:ℚ) ≤ (n:ℚ) := by exact_mod_cast hn
    linarith

/-- Witness for C5 at one draw call from the fresh reflector: the `time`
uniform is strictly positive. -/
theorem reflector_time_monotone_witness :
    (1:ℕ) ≤ 1 ∧
    0 < (TextScene.drawIter (fun _ => 0) 1
      (TextScene.setReflector ⟨0, fun _ => 0⟩ initialState)).reflectorTime :=
  ⟨by decide,
    (reflector_time_monotone ⟨0, fun _ => 0⟩ (fun _ => 0) 0 initialState
      1).2.2.2.2.2.2.2.2.2.2.1 (by decide)⟩

/-- C6: in the sphere version, after every `draw(t)` the sphere sits at
`Math.sin(t / 1000) + 3`, which lies in `[2, 4]` whenever `Math.sin` is
bounded by `[-1, 1]`; the unit-radius sphere therefore stays strictly
above the water plane at height 0 (its lowest point `y - 1` is positive). -/
theorem sphere_stays_above_water (m : JsMath)
    (hsin : ∀ x, -1 ≤ m.sin x ∧ m.sin x ≤ 1) (t : ℚ) (s : SceneState) :
    (SphereScene.draw m t s).sphereY = m.sin (t / 1000) + 3 ∧
    2 ≤ (SphereScene.draw m t s).sphereY ∧
    (SphereScene.draw m t s).sphereY ≤ 4 ∧
    0 < (SphereScene.draw m t s).sphereY - 1 := by
  have h := hsin (t / 1000)
  refine ⟨rfl, ?_, ?_, ?_⟩ <;>
    simp only [SphereScene.draw] <;> linarith [h.1, h.2]

/-- Witness for C6: the everywhere-zero sine satisfies the bound, and the
resulting sphere height is at least 2. -/
theorem sphere_stays_above_water_witness :
    (∀ x : ℚ, -1 ≤ JsMath.sin ⟨0, fun _ => 0⟩ x ∧
      JsMath.sin ⟨0, fun _ => 0⟩ x ≤ 1) ∧
    2 ≤ (SphereScene.draw ⟨0, fun _ => 0⟩ 0 initialState).sphereY :=
  ⟨fun _ => ⟨by norm_num, by norm_num⟩,
    (sphere_stays_above_water ⟨0, fun _ => 0⟩
      (fun _ => ⟨by norm_num, by norm_num⟩) 0 initialState).2.1⟩

/-- C7: after `handleResize` (both versions), `this.width`/`this.height`
hold the window's inner dimensions, the camera aspect is their quotient
with the projection matrix updated, the renderer is resized to those
dimensions, and the pixel ratio is `window.devicePixelRatio`, or 1 when
that value is falsy. -/
theorem handleResize_updates_viewport (w : Window) (s : SceneState) :
    ((TextScene.handleResize w s).width = some w.innerWidth ∧
      (TextScene.handleResize w s).height = some w.innerHeight ∧
      (TextScene.handleResize w s).cameraAspect
        = some (w.innerWidth / w.innerHeight) ∧
      (TextScene.handleResize w s).projectionUpdated = true ∧
      (TextScene.handleResize w s).rendererWidth = some w.innerWidth ∧
      (TextScene.handleResize w s).rendererHeight = some w.innerHeight ∧
      (TextScene.handleResize w s).pixelRatio
        = (if w.devicePixelRatio ≠ 0 then w.devicePixelRatio else 1)) ∧
    ((SphereScene.handleResize w s).width = some w.innerWidth ∧
      (SphereScene.handleResize w s).height = some w.innerHeight ∧
      (SphereScene.handleResize w s).cameraAspect
        = some (w.innerWidth / w.innerHeight) ∧
      (SphereScene.handleResize w s).projectionUpdated = true ∧
      (SphereScene.handleResize w s).rendererWidth = some w.innerWidth ∧
      (SphereScene.handleResize w s).rendererHeight = some w.innerHeight ∧
      (SphereScene.handleResize w s).pixelRatio
        = (if w.devicePixelRatio ≠ 0 then w.devicePixelRatio else 1)) :=
  ⟨⟨rfl, rfl, rfl, rfl, rfl, rfl, rfl⟩, ⟨rfl, rfl, rfl, rfl, rfl, rfl, rfl⟩⟩

/-- C8: the two versions of `setReflector` assemble identical reflector
configurations: circle geometry of radius 40 with 64 segments, the same
vertex and fragment shader sources installed on
`Reflector.ReflectorShader`, repeat-wrapping on both axes of the dudv
texture, `time` uniform 0, `clipBias` 0.003, texture dimensions equal to
the window's inner dimensions, and colour `0x000000`. -/
theorem setReflector_versions_agree (w : Window) :
    TextScene.reflectorConfig w = SphereScene.reflectorConfig w ∧
    (TextScene.reflectorConfig w).geometryRadius = 40 ∧
    (TextScene.reflectorConfig w).geometrySegments = 64 ∧
    (TextScene.reflectorConfig w).vertexShaderSrc
      = (SphereScene.reflectorConfig w).vertexShaderSrc ∧
    (TextScene.reflectorConfig w).fragmentShaderSrc
      = (SphereScene.reflectorConfig w).fragmentShaderSrc ∧
    (TextScene.reflectorConfig w).dudvWrapS = TextureWrap.repeatWrapping ∧
    (TextScene.reflectorConfig w).dudvWrapT = TextureWrap.repeatWrapping ∧
    (TextScene.reflectorConfig w).timeUniform = 0 ∧
    (TextScene.reflectorConfig w).clipBias = 3/1000 ∧
    (TextScene.reflectorConfig w).textureWidth = w.innerWidth ∧
    (TextScene.reflectorConfig w).textureHeight = w.innerHeight ∧
    (TextScene.reflectorConfig w).color = 0 :=
  ⟨rfl, rfl, rfl, rfl, rfl, rfl, rfl, rfl, rfl, rfl, rfl, rfl⟩

/-- C9: in the sphere version, the sphere height after `draw(t)` does not
depend on the GUI's `y` setting: moving the slider (which writes
`guiObj.y` and copies it into the sphere position) before a draw leaves
the post-draw height unchanged, and any two pre-draw states yield the
same post-draw height, because `draw` unconditionally overwrites it with
`Math.sin(t / 1000) + 3`. -/
theorem sphereY_independent_of_gui (m : JsMath) (t y : ℚ)
    (s1 s2 : SceneState) :
    (SphereScene.draw m t (SphereScene.guiSetY y s1)).sphereY
      = (SphereScene.draw m t s1).sphereY ∧
    (SphereScene.draw m t s1).sphereY = (SphereScene.draw m t s2).sphereY :=
  ⟨rfl, rfl⟩

/-- C10: `setCamera` divides the still-undefined `this.width` by
`this.height`, so the camera starts with aspect `NaN` (`none`); `init`
runs `handleResize` after `setCamera` and before `events()` starts the
loop, so when the first frame is rendered the aspect is
`window.innerWidth / window.innerHeight` (and the first `draw` does not
change it). -/
theorem camera_aspect_nan_until_resize (m : JsMath) (w : Window) :
    TextScene.stateBeforeCamera.width = none ∧
    TextScene.stateBeforeCamera.height = none ∧
    (TextScene.setCamera TextScene.stateBeforeCamera).cameraAspect = none ∧
    (TextScene.initBeforeEvents m w).cameraAspect
      = some (w.innerWidth / w.innerHeight) ∧
    (TextScene.draw 0 (TextScene.initBeforeEvents m w)).cameraAspect
      = some (w.innerWidth / w.innerHeight) :=
  ⟨rfl, rfl, rfl, rfl, rfl⟩
